import Mathlib

/-!
Shallow embedding of the blog-ai application (src/blogai.py) and proofs of
the specified properties of its tone-suggestion logic, prompt builder,
page flow and API-key resolution.

Python strings are modelled as lists of natural-number codepoints
(`List Nat`) where the tone suggester manipulates them, and as Lean
`String`s where the prompt builder only concatenates them.
-/

/-- Codepoints of a Lean string literal, modelling a Python `str` value. -/
def pyStr (s : String) : List Nat :=
  s.data.map Char.toNat

/-- Python `str.lower` on a single codepoint (ASCII case folding:
codepoints 65-90 shift up by 32, everything else is unchanged). -/
def lowerNat (n : Nat) : Nat :=
  if 65 ≤ n ∧ n ≤ 90 then n + 32 else n

/-- Python `topic.lower()` (line 73 of src/blogai.py). -/
def pyLower (s : List Nat) : List Nat :=
  s.map lowerNat

/-- Boolean test that the first list is a leading segment of the second. -/
def beginsWith : List Nat → List Nat → Bool
  | [], _ => true
  | _ :: _, [] => false
  | a :: as, b :: bs => a == b && beginsWith as bs

/-- Python substring membership `needle in hay` on strings. -/
def containsSub (needle : List Nat) : List Nat → Bool
  | [] => beginsWith needle []
  | c :: rest => beginsWith needle (c :: rest) || containsSub needle rest

/-- Python `any(word in topic_lower for word in ws)` as used on
lines 76-94 of src/blogai.py. -/
def anyKeyword (ws : List String) (tl : List Nat) : Bool :=
  ws.any (fun w => containsSub (pyStr w) tl)

/-- The tone catalog `tone_options` of src/blogai.py (lines 54-65):
an ordered mapping from tone name to description. -/
def tone_options : List (String × String) :=
  [("Professional", "Formal, polished, and authoritative. Ideal for business and corporate topics."),
   ("Informative & Educational", "Fact-driven and structured to explain concepts clearly."),
   ("Conversational & Friendly", "Engaging and approachable, like talking to a friend."),
   ("Witty & Humorous", "Lighthearted with humor, making content fun and digestible."),
   ("Persuasive & Sales-Oriented", "Focused on convincing the reader, great for marketing and sales."),
   ("Inspirational & Motivational", "Encouraging and uplifting, perfect for self-improvement and success stories."),
   ("Narrative & Storytelling", "Uses anecdotes and storytelling for engagement."),
   ("Analytical & Data-Driven", "Fact-based with statistics, suitable for business and finance topics."),
   ("Casual & Fun", "Light, entertaining, and easy to read."),
   ("Thought-Provoking & Philosophical", "Encourages deep thinking and reflection.")]

/-- The tone suggester `suggest_tone` of src/blogai.py (lines 68-97):
lower-case the topic, then walk the fixed if/elif chain of keyword
groups, returning the tone of the first group with a keyword occurring
as a substring, and "Professional" when no group matches. -/
def suggest_tone (topic : List Nat) : String :=
  let topic_lower := pyLower topic
  if anyKeyword ["business", "finance", "corporate", "strategy"] topic_lower then
    "Professional"
  else if anyKeyword ["science", "education", "learning", "technology"] topic_lower then
    "Informative & Educational"
  else if anyKeyword ["personal", "lifestyle", "travel", "relationships"] topic_lower then
    "Conversational & Friendly"
  else if anyKeyword ["comedy", "fun", "entertainment", "jokes"] topic_lower then
    "Witty & Humorous"
  else if anyKeyword ["marketing", "sales", "advertising", "branding"] topic_lower then
    "Persuasive & Sales-Oriented"
  else if anyKeyword ["motivation", "success", "self-improvement", "inspiration"] topic_lower then
    "Inspirational & Motivational"
  else if anyKeyword ["history", "biography", "stories", "fiction"] topic_lower then
    "Narrative & Storytelling"
  else if anyKeyword ["data", "analysis", "research", "statistics"] topic_lower then
    "Analytical & Data-Driven"
  else if anyKeyword ["fun", "casual", "easy", "relaxed"] topic_lower then
    "Casual & Fun"
  else if anyKeyword ["philosophy", "deep", "thoughts", "ethics"] topic_lower then
    "Thought-Provoking & Philosophical"
  else
    "Professional"

example : suggest_tone (pyStr "fun facts") = "Witty & Humorous" := by decide
example : suggest_tone (pyStr "Business News") = "Professional" := by decide
example : suggest_tone (pyStr "xyzabc") = "Professional" := by decide
example : suggest_tone (pyStr "casual chat") = "Casual & Fun" := by decide
example : suggest_tone (pyStr "") = "Professional" := by decide

/-- The catalog of (tone, trigger keywords) groups in the exact order of
the table in section 4.1 of the spec. -/
def toneCatalog : List (String × List String) :=
  [("Professional", ["business", "finance", "corporate", "strategy"]),
   ("Informative & Educational", ["science", "education", "learning", "technology"]),
   ("Conversational & Friendly", ["personal", "lifestyle", "travel", "relationships"]),
   ("Witty & Humorous", ["comedy", "fun", "entertainment", "jokes"]),
   ("Persuasive & Sales-Oriented", ["marketing", "sales", "advertising", "branding"]),
   ("Inspirational & Motivational", ["motivation", "success", "self-improvement", "inspiration"]),
   ("Narrative & Storytelling", ["history", "biography", "stories", "fiction"]),
   ("Analytical & Data-Driven", ["data", "analysis", "research", "statistics"]),
   ("Casual & Fun", ["fun", "casual", "easy", "relaxed"]),
   ("Thought-Provoking & Philosophical", ["philosophy", "deep", "thoughts", "ethics"])]

/-- The loop of the reference algorithm from the spec: walk the ordered
group list and return the tone of the first group with a matching
keyword, falling back to "Professional". -/
def firstMatch (tl : List Nat) : List (String × List String) → String
  | [] => "Professional"
  | g :: gs => if anyKeyword g.2 tl then g.1 else firstMatch tl gs

/-- The reference algorithm of section 4.1 of the spec: lower-case the
topic, then scan `toneCatalog` in order with `firstMatch`. -/
def spec_suggest_tone (topic : List Nat) : String :=
  firstMatch (pyLower topic) toneCatalog

/-- Python `str.lower` on a Lean `String` (ASCII case folding). -/
def pyLowerS (s : String) : String :=
  ⟨s.data.map (fun c => Char.ofNat (lowerNat c.toNat))⟩

/-- The instruction string `modified_prompt` built by
`process_gemini_response` (lines 156-159 of src/blogai.py); the source
concatenates two literals, the first ending in "words. ". -/
def modified_prompt (prompt tone : String) (length : Nat) : String :=
  "Write a " ++ pyLowerS tone ++ " blog post about \x27" ++ prompt ++
    "\x27 with a maximum of " ++ toString length ++ " words. " ++
    "Ensure a proper structure including an introduction, main sections, and a conclusion."

/-- The prompt template as one string, quoted in section 4.2 of
the spec. -/
def spec_prompt_template (topic tone : String) (max_words : Nat) : String :=
  "Write a " ++ pyLowerS tone ++ " blog post about \x27" ++ topic ++
    "\x27 with a maximum of " ++ toString max_words ++
    " words. Ensure a proper structure including an introduction, main sections, and a conclusion."

/-- `process_gemini_response` (lines 143-165 of src/blogai.py): build
`modified_prompt`, hand it to the generation collaborator
(`chat_session.send_message`), and return the response text unchanged.
The collaborator is modelled as a function from instruction to text. -/
def process_gemini_response (send_message : String → String)
    (prompt tone : String) (length : Nat) : String :=
  send_message (modified_prompt prompt tone length)

/-- Observable outcome of one run of the Streamlit page body. -/
structure PageRun where
  suggested_tone : String
  suggester_calls : Nat
  gemini_calls : List String
  blog_post : Option String
  deriving DecidableEq, Repr

/-- The page flow of src/blogai.py (lines 104-171): when the topic is
empty (falsy), the suggested tone defaults to "Professional" and the
generation section is skipped; otherwise `suggest_tone` is called once
and one collaborator call is made with the built prompt. -/
def run_page (gemini : String → String) (topic selected_tone : String)
    (length_option : Nat) : PageRun :=
  if topic.isEmpty then
    { suggested_tone := "Professional"
      suggester_calls := 0
      gemini_calls := []
      blog_post := none }
  else
    { suggested_tone := suggest_tone (pyStr topic)
      suggester_calls := 1
      gemini_calls := [modified_prompt topic selected_tone length_option]
      blog_post := some (gemini (modified_prompt topic selected_tone length_option)) }

/-- API-key resolution (lines 12-16 of src/blogai.py): try the
Streamlit secret store, and on any exception fall back to
`os.environ.get`, which yields `none` when the variable is absent.
The secret-store lookup is modelled as `Except Unit String` (it either
produces a key or raises), the environment as `Option String`. -/
def api_key (secrets : Except Unit String) (env : Option String) : Option String :=
  match secrets with
  | Except.ok k => some k
  | Except.error _ => env

/-- The key handed to `genai.configure` (line 19 of src/blogai.py):
exactly the resolved `api_key`, with no presence check in between. -/
def configured_api_key (secrets : Except Unit String) (env : Option String) : Option String :=
  api_key secrets env

/-! ## Helper lemmas -/

theorem lowerNat_idem (n : Nat) : lowerNat (lowerNat n) = lowerNat n := by
  unfold lowerNat
  by_cases h : 65 ≤ n ∧ n ≤ 90
  · rw [if_pos h, if_neg (by omega)]
  · rw [if_neg h, if_neg h]

theorem pyLower_idem (s : List Nat) : pyLower (pyLower s) = pyLower s := by
  induction s with
  | nil => rfl
  | cons a t ih =>
    simp only [pyLower, List.map_cons] at ih ⊢
    rw [lowerNat_idem]
    exact congrArg _ (by simpa [pyLower] using ih)

theorem strAppend_assoc (a b c : String) : a ++ b ++ c = a ++ (b ++ c) := by
  cases a; cases b; cases c
  exact congrArg String.mk (List.append_assoc _ _ _)

theorem modified_prompt_eq_template (topic tone : String) (max_words : Nat) :
    modified_prompt topic tone max_words = spec_prompt_template topic tone max_words := by
  unfold modified_prompt spec_prompt_template
  rw [strAppend_assoc]
  congr 1

theorem suggest_tone_unfold (t : List Nat) :
    suggest_tone t = firstMatch (pyLower t) toneCatalog := by
  simp only [suggest_tone, toneCatalog, firstMatch]

/-! ## Claim theorems -/

/-- C1: for every topic, `suggest_tone` returns the result of the
reference algorithm of the spec: lower-case the topic, test the ten
keyword groups in catalog order, return the tone of the first group
with a matching keyword, and "Professional" when no group matches. -/
theorem suggest_tone_eq_spec (t : List Nat) : suggest_tone t = spec_suggest_tone t := by
  simp only [suggest_tone, spec_suggest_tone, toneCatalog, firstMatch]

/-- C3: for every topic (the empty one included), `suggest_tone`
returns one of the ten tone names that are keys of `tone_options`, so
the description lookup succeeds and the selectbox default index is in
range. -/
theorem suggest_tone_in_catalog (t : List Nat) :
    suggest_tone t ∈ tone_options.map Prod.fst ∧
    (List.lookup (suggest_tone t) tone_options).isSome = true ∧
    (tone_options.map Prod.fst).indexOf (suggest_tone t) < (tone_options.map Prod.fst).length := by
  rw [suggest_tone_unfold]
  simp only [toneCatalog, firstMatch]
  repeat' split
  all_goals decide

/-- C4: the built instruction equals the spec template for every
(topic, tone, max_words), and in particular for topic "gardening",
tone "Casual & Fun", max_words 300 it is exactly the quoted string. -/
theorem modified_prompt_correct :
    (∀ topic tone max_words, modified_prompt topic tone max_words =
      spec_prompt_template topic tone max_words) ∧
    modified_prompt "gardening" "Casual & Fun" 300 =
      "Write a casual & fun blog post about \x27gardening\x27 with a maximum of 300 words. Ensure a proper structure including an introduction, main sections, and a conclusion." := by
  refine ⟨modified_prompt_eq_template, ?_⟩
  decide

/-- C5: with an empty topic the page makes no suggester call and no
collaborator call, generates nothing, and the suggested tone defaults
to "Professional". -/
theorem run_page_empty_topic (gemini : String → String) (selected_tone : String)
    (length_option : Nat) :
    run_page gemini "" selected_tone length_option =
      { suggested_tone := "Professional"
        suggester_calls := 0
        gemini_calls := []
        blog_post := none } := rfl

/-- C8: `process_gemini_response` returns exactly the collaborator
output for the built instruction string, with no transformation
applied. -/
theorem process_gemini_response_passthrough (send_message : String → String)
    (prompt tone : String) (length : Nat) :
    process_gemini_response send_message prompt tone length =
      send_message (spec_prompt_template prompt tone length) := by
  unfold process_gemini_response
  rw [modified_prompt_eq_template]

/-- C9: key resolution uses the secret store first: a successful store
lookup is returned as the key whatever the environment holds, and a
failed store lookup falls back to the environment lookup. -/
theorem api_key_resolution :
    (∀ k env, api_key (Except.ok k) env = some k) ∧
    (∀ k env1 env2, api_key (Except.ok k) env1 = api_key (Except.ok k) env2) ∧
    (∀ e env, api_key (Except.error e) env = env) :=
  ⟨fun _ _ => rfl, fun _ _ _ => rfl, fun _ _ => rfl⟩

/-- C10: with the key absent from both the store and the environment,
resolution still returns (with `none`) and that absent value is what
reaches the configure call; no error is raised locally. -/
theorem api_key_absent_no_failure :
    api_key (Except.error ()) none = none ∧
    configured_api_key (Except.error ()) none = none :=
  ⟨rfl, rfl⟩

/-- C2: a topic whose lower-cased form contains "fun" and no keyword of
the first three groups always resolves to "Witty & Humorous" (group 4),
and a "Casual & Fun" result always comes from "casual", "easy" or
"relaxed": the "fun" trigger of group 9 is never the deciding keyword. -/
theorem suggest_tone_fun_is_witty :
    (∀ t, containsSub (pyStr "fun") (pyLower t) = true →
      anyKeyword ["business", "finance", "corporate", "strategy"] (pyLower t) = false →
      anyKeyword ["science", "education", "learning", "technology"] (pyLower t) = false →
      anyKeyword ["personal", "lifestyle", "travel", "relationships"] (pyLower t) = false →
      suggest_tone t = "Witty & Humorous") ∧
    (∀ t, suggest_tone t = "Casual & Fun" →
      anyKeyword ["casual", "easy", "relaxed"] (pyLower t) = true) := by
  constructor
  · intro t hfun h1 h2 h3
    have h4 : anyKeyword ["comedy", "fun", "entertainment", "jokes"] (pyLower t) = true := by
      simp [anyKeyword, hfun]
    rw [suggest_tone_unfold]
    simp only [toneCatalog, firstMatch]
    simp [h1, h2, h3, h4]
  · intro t h
    rw [suggest_tone_unfold] at h
    simp only [toneCatalog, firstMatch] at h
    repeat' split at h
    all_goals (try exact absurd h (by decide))
    rename_i c1 c2 c3 c4 c5 c6 c7 c8 c9
    have hfun : containsSub (pyStr "fun") (pyLower t) = false := by
      simp [anyKeyword] at c4
      simpa using c4.2.1
    simp [anyKeyword] at c9 ⊢
    rcases c9 with hf | hrest
    · rw [hfun] at hf
      exact absurd hf (by decide)
    · exact hrest

/-- C6: the tone suggester is case-invariant — it gives the same answer
on a topic and on its lower-cased form — and any topic containing
"business" case-insensitively resolves to "Professional". -/
theorem suggest_tone_case_invariant :
    (∀ t, suggest_tone t = suggest_tone (pyLower t)) ∧
    (∀ t, containsSub (pyStr "business") (pyLower t) = true →
      suggest_tone t = "Professional") := by
  constructor
  · intro t
    rw [suggest_tone_unfold, suggest_tone_unfold, pyLower_idem]
  · intro t h
    rw [suggest_tone_unfold]
    simp only [toneCatalog, firstMatch]
    have h1 : anyKeyword ["business", "finance", "corporate", "strategy"] (pyLower t) = true := by
      simp [anyKeyword, h]
    simp [h1]

/-- C7: the tone suggester is deterministic and stateless: across any
sequence of invocations, two calls with equal topic strings yield equal
tones, regardless of their position in the sequence. -/
theorem suggest_tone_stateless (calls : List (List Nat)) (i j : Nat)
    (hi : i < calls.length) (hj : j < calls.length)
    (h : calls.get ⟨i, hi⟩ = calls.get ⟨j, hj⟩) :
    (calls.map suggest_tone).get ⟨i, by simpa using hi⟩ =
      (calls.map suggest_tone).get ⟨j, by simpa using hj⟩ := by
  simp only [List.get_eq_getElem, List.getElem_map]
  simp only [List.get_eq_getElem] at h
  rw [h]

/-! ## Witnesses -/

/-- Witness for C2: "fun facts" contains "fun", matches none of the
first three groups, and is mapped to "Witty & Humorous"; "casual chat"
is mapped to "Casual & Fun" and indeed contains one of casual, easy,
relaxed. -/
theorem suggest_tone_fun_is_witty_witness :
    suggest_tone (pyStr "fun facts") = "Witty & Humorous" ∧
    anyKeyword ["casual", "easy", "relaxed"] (pyLower (pyStr "casual chat")) = true :=
  ⟨suggest_tone_fun_is_witty.1 (pyStr "fun facts") (by decide) (by decide) (by decide) (by decide),
   suggest_tone_fun_is_witty.2 (pyStr "casual chat") (by decide)⟩

/-- Witness for C6: "Business News" contains "business"
case-insensitively and is mapped to "Professional". -/
theorem suggest_tone_case_invariant_witness :
    suggest_tone (pyStr "Business News") = "Professional" :=
  suggest_tone_case_invariant.2 (pyStr "Business News") (by decide)

/-- Witness for C7: in the call sequence ["deep work", "travel",
"deep work"], the first and third calls return the same tone. -/
theorem suggest_tone_stateless_witness :
    ([pyStr "deep work", pyStr "travel", pyStr "deep work"].map suggest_tone).get ⟨0, by decide⟩ =
      ([pyStr "deep work", pyStr "travel", pyStr "deep work"].map suggest_tone).get ⟨2, by decide⟩ :=
  suggest_tone_stateless [pyStr "deep work", pyStr "travel", pyStr "deep work"] 0 2
    (by decide) (by decide) (by decide)
